import Mathlib

/-!
Verification of the core data layer of the cartera/recaudo dashboard:
the Excel-to-parquet cache (`data_loader.load_excel_with_cache`), the
cartera deduplicator (`process_cartera_data`), the monetary coercion,
the account classifier (`clasificar_empresa`), the aging aggregation
(`obtener_metricas` / zone risk metrics), the period comparator
(`compare_cartera_periods`) and the confidence factor
(`calcular_factor_confianza`).  Each definition is a shallow embedding
of the corresponding Python function; monetary amounts are modelled as
rationals, file modification times as naturals, and the logarithmic
confidence factor over the reals.
-/

namespace Dashboard

/-! ### Account classification (`pages/2_Cartera.py`, `clasificar_empresa`) -/

/-- A value of the `Cuenta` column: missing (`NaN`/`None`), an integer
cell, or a text cell. -/
inductive Cuenta where
  | na : Cuenta
  | int (n : Int) : Cuenta
  | str (s : String) : Cuenta
deriving DecidableEq, Repr

/-- Python `str.strip()`: drop whitespace from both ends. -/
def pyStrip (l : List Char) : List Char :=
  ((l.dropWhile Char.isWhitespace).reverse.dropWhile Char.isWhitespace).reverse

/-- Model of `str(cuenta).strip()` followed by removing every '.', ' ' and ','
(the cleaning performed inside `clasificar_empresa`). -/
def limpiar_cuenta (s : String) : String :=
  String.mk ((pyStrip s.data).filter (fun c => c ≠ '.' ∧ c ≠ ' ' ∧ c ≠ ','))

/-- Read a digit character list as a natural number (no validation). -/
def natFromDigits (l : List Char) : Nat :=
  l.foldl (fun a c => a * 10 + (c.toNat - 48)) 0

/-- Parse a non-empty all-digit character list as a natural number. -/
def digitsToNat? (l : List Char) : Option Nat :=
  if l ≠ [] ∧ l.all Char.isDigit then some (natFromDigits l) else none

/-- Model of Python `int(s)` on an already-stripped string: an optional
sign followed by decimal digits; anything else fails. -/
def str_toInt? (s : String) : Option Int :=
  match s.data with
  | '-' :: ds => (digitsToNat? ds).map (fun n => -(n : Int))
  | '+' :: ds => (digitsToNat? ds).map (fun n => (n : Int))
  | ds => (digitsToNat? ds).map (fun n => (n : Int))

/-- The rule chain of `clasificar_empresa` acting on the cleaned
string: exact-match rules, then the `139905000–139905005` numeric
range, then the catch-all `"Otras"`. -/
def clasificar_limpia (c : String) : String :=
  if c ∈ ["137010001", "137010002", "137010003", "137010004",
          "137010005", "137010006", "137010999"] then "Soluciones Integrales"
  else if c = "130505010" then "Grupo Estrategico"
  else if c = "130505011" then "Finaliados"
  else if c = "130505012" then "AGM"
  else if c = "130505013" then "Motofacil"
  else if c = "130505014" then "Motored"
  else
    match str_toInt? c with
    | some n => if 139905000 ≤ n ∧ n ≤ 139905005 then "Cartera Castigada" else "Otras"
    | none => "Otras"

/-- The body of `clasificar_empresa` on a non-null value: clean the
string rendering, then apply the rule chain. -/
def clasificar_str (s : String) : String :=
  clasificar_limpia (limpiar_cuenta s)

/-- Function `clasificar_empresa`: a `pd.isna` input maps to `"Sin Clasificar"`,
otherwise the value is rendered as a string and classified. -/
def clasificar_empresa : Cuenta → String
  | .na => "Sin Clasificar"
  | .int n => clasificar_str (toString n)
  | .str s => clasificar_str s

/-- The fixed enumeration of categories that `clasificar_empresa` can
return. -/
def categorias : List String :=
  ["Sin Clasificar", "Soluciones Integrales", "Grupo Estrategico",
   "Finaliados", "AGM", "Motofacil", "Motored", "Cartera Castigada", "Otras"]

theorem clasificar_str_mem_categorias (s : String) :
    clasificar_str s ∈ categorias := by
  unfold clasificar_str clasificar_limpia categorias
  repeat' split
  all_goals simp

theorem clasificar_str_unparseable (s : String)
    (hn : str_toInt? (limpiar_cuenta s) = none) :
    clasificar_str s = "Otras" := by
  unfold clasificar_str clasificar_limpia
  split_ifs with h1 h2 h3 h4 h5 h6
  · exfalso
    simp only [List.mem_cons, List.not_mem_nil, or_false] at h1
    rcases h1 with h | h | h | h | h | h | h <;>
      (rw [h] at hn; exact absurd hn (by decide))
  · rw [h2] at hn; exact absurd hn (by decide)
  · rw [h3] at hn; exact absurd hn (by decide)
  · rw [h4] at hn; exact absurd hn (by decide)
  · rw [h5] at hn; exact absurd hn (by decide)
  · rw [h6] at hn; exact absurd hn (by decide)
  · rw [hn]

/-- C5 (amended): the account classifier is deterministic and total
into the fixed nine-category enumeration; `"130505013"` maps to
`"Motofacil"`; every code in 139905000–139905005 (as string or integer
cell) maps to `"Cartera Castigada"`; a null input maps to
`"Sin Clasificar"`; a non-null input whose cleaned form is not an
integer literal maps to `"Otras"` (not to `"Sin Clasificar"`, contrary
to the original claim); and the unmatched numeric code `"999999999"`
maps to `"Otras"`. -/
theorem C5_clasificacion_total_y_casos :
    (∀ c : Cuenta, clasificar_empresa c ∈ categorias) ∧
    clasificar_empresa (.str "130505013") = "Motofacil" ∧
    (∀ n : Int, 139905000 ≤ n → n ≤ 139905005 →
      clasificar_empresa (.str (toString n)) = "Cartera Castigada" ∧
      clasificar_empresa (.int n) = "Cartera Castigada") ∧
    clasificar_empresa .na = "Sin Clasificar" ∧
    (∀ s : String, str_toInt? (limpiar_cuenta s) = none →
      clasificar_empresa (.str s) = "Otras") ∧
    clasificar_empresa (.str "999999999") = "Otras" := by
  refine ⟨?_, by decide, ?_, rfl, ?_, by decide⟩
  · intro c
    cases c with
    | na => simp [clasificar_empresa, categorias]
    | int n => exact clasificar_str_mem_categorias (toString n)
    | str s => exact clasificar_str_mem_categorias s
  · intro n h1 h2
    have key : clasificar_str (toString n) = "Cartera Castigada" := by
      interval_cases n <;> decide
    exact ⟨key, key⟩
  · intro s hn
    exact clasificar_str_unparseable s hn

/-- C5 witness: the range rule applied at the concrete code 139905003. -/
theorem C5_clasificacion_witness :
    clasificar_empresa (.str (toString (139905003 : Int))) = "Cartera Castigada" :=
  (C5_clasificacion_total_y_casos.2.2.1 139905003 (by decide) (by decide)).1

/-- C5 counterexample: the unparseable non-null input `"abc"` is
classified `"Otras"`, not `"Sin Clasificar"` as the claim states. -/
theorem C5_clasificacion_counterexample :
    clasificar_empresa (.str "abc") = "Otras" ∧
    clasificar_empresa (.str "abc") ≠ "Sin Clasificar" := by decide

/-! ### Monetary coercion (`utils/data_loader.py`, `process_cartera_data`
lines 194–200 and `process_recaudo_data` lines 309–315) -/

/-- The cell cleaning applied to monetary columns: remove every ',', '$'
and ' ' (`str.replace`) and strip surrounding whitespace. -/
def limpiar_moneda (s : String) : String :=
  String.mk (pyStrip (s.data.filter (fun c => c ≠ ',' ∧ c ≠ '$' ∧ c ≠ ' ')))

/-- A successfully parsed decimal literal, kept in digit form so that
parsing stays decidable: sign, integer part, fractional part and the
number of fractional digits. -/
structure DecNum where
  neg : Bool
  intPart : Nat
  fracPart : Nat
  fracLen : Nat
deriving DecidableEq, Repr

/-- The rational value of a parsed decimal literal. -/
def DecNum.toRat (d : DecNum) : ℚ :=
  (if d.neg then -1 else 1) * ((d.intPart : ℚ) + (d.fracPart : ℚ) / 10 ^ d.fracLen)

/-- Digit phase of `pd.to_numeric(..., errors='coerce')` on one cell:
an unsigned body is digits with at most one decimal point. -/
def parseDecNumBody? (neg : Bool) (body : List Char) : Option DecNum :=
  match body.splitOn '.' with
  | [a] => if a ≠ [] ∧ a.all Char.isDigit then some ⟨neg, natFromDigits a, 0, 0⟩ else none
  | [a, b] =>
    if a.all Char.isDigit ∧ b.all Char.isDigit ∧ (a ≠ [] ∨ b ≠ []) then
      some ⟨neg, natFromDigits a, natFromDigits b, b.length⟩
    else none
  | _ => none

/-- Sign handling of the decimal parser. -/
def parseDecNum? (s : String) : Option DecNum :=
  match s.data with
  | '-' :: r => parseDecNumBody? true r
  | '+' :: r => parseDecNumBody? false r
  | ds => parseDecNumBody? false ds

/-- Model of `pd.to_numeric(serie_limpia, errors='coerce')` on one cleaned cell:
the parsed rational value, or `none` (NaN) when the cell is unparseable. -/
def parseDecimal? (s : String) : Option ℚ := (parseDecNum? s).map DecNum.toRat

/-- One cartera monetary cell (lines 199–200): clean, coerce, and
`fillna(0)`. -/
def process_cartera_cell (s : String) : ℚ := (parseDecimal? (limpiar_moneda s)).getD 0

/-- One recaudo monetary cell (lines 314–315): clean and coerce — there
is no fill step, so an unparseable cell stays NaN (`none`). -/
def process_recaudo_cell (s : String) : Option ℚ := parseDecimal? (limpiar_moneda s)

/-- A cartera monetary column after coercion. -/
def process_cartera_col (l : List String) : List ℚ := l.map process_cartera_cell

/-- A recaudo monetary column after coercion. -/
def process_recaudo_col (l : List String) : List (Option ℚ) := l.map process_recaudo_cell

/-- C6 (amended): monetary coercion never raises — it is a total
function of the column, preserving its length — and in the cartera
dataset it leaves no null: an unparseable cell becomes 0 and a parseable
cell its parsed value, with currency symbols, thousands separators and
spaces stripped (so `" $1,234.50 "` coerces to `1234.5`).  In the
recaudo dataset the coercion lacks the fill-with-zero step, so an
unparseable cell becomes a null (NaN) rather than 0, contrary to the
original claim. -/
theorem C6_coercion_monetaria :
    (∀ l : List String, (process_cartera_col l).length = l.length ∧
      (process_recaudo_col l).length = l.length) ∧
    (∀ s : String, parseDecimal? (limpiar_moneda s) = none →
      process_cartera_cell s = 0) ∧
    (∀ s : String, ∀ q : ℚ, parseDecimal? (limpiar_moneda s) = some q →
      process_cartera_cell s = q) ∧
    process_cartera_cell " $1,234.50 " = 1234.5 := by
  refine ⟨?_, ?_, ?_, ?_⟩
  · intro l
    constructor <;> simp [process_cartera_col, process_recaudo_col]
  · intro s h
    rw [process_cartera_cell, h]
    rfl
  · intro s q h
    rw [process_cartera_cell, h]
    rfl
  · have h : parseDecNum? (limpiar_moneda " $1,234.50 ") = some ⟨false, 1234, 50, 2⟩ := by
      decide
    rw [process_cartera_cell, parseDecimal?, h]
    norm_num [DecNum.toRat]

/-- C6 witness: the unparseable cartera cell `"abc"` coerces to 0. -/
theorem C6_coercion_witness : process_cartera_cell "abc" = 0 :=
  C6_coercion_monetaria.2.1 "abc" (by decide)

/-- C6 counterexample: in the recaudo dataset the unparseable cell
`"abc"` coerces to a null (`none`), so the coerced column still contains
a null value and the value never became 0. -/
theorem C6_coercion_counterexample :
    process_recaudo_col ["abc"] = [none] ∧ process_recaudo_cell "abc" ≠ some 0 := by
  constructor
  · decide
  · decide

/-! ### Aging aggregation (`pages/2_Cartera.py`, `obtener_metricas`
lines 396–427 and the per-zone aggregation lines 625–645) -/

/-- One normalized cartera record restricted to the monetary aging
fields used by the aggregations. -/
structure PRow where
  totalCuota : ℚ
  porVencer : ℚ
  dias30 : ℚ
  dias60 : ℚ
  dias90 : ℚ
  diasMas90 : ℚ

/-- Column sum `df[col].sum()` over the rows of a group. -/
def sumCol (f : PRow → ℚ) (l : List PRow) : ℚ := (l.map f).sum

/-- The metrics dictionary built by `obtener_metricas`. -/
structure Metricas where
  total : ℚ
  por_vencer : ℚ
  dias30 : ℚ
  dias60 : ℚ
  dias90 : ℚ
  dias_mas90 : ℚ
  indice_corriente : ℚ
  indice_b : ℚ
  indice_c : ℚ
  indice_d : ℚ
  indice_e : ℚ

/-- Function `obtener_metricas`: per-group bucket sums and the five percentage
indices, each divided by the summed `Total Cuota` column (not by the sum
of the buckets); all indices are 0 when the total is not positive. -/
def obtener_metricas (df : List PRow) : Metricas :=
  if sumCol (·.totalCuota) df > 0 then
    { total := sumCol (·.totalCuota) df
      por_vencer := sumCol (·.porVencer) df
      dias30 := sumCol (·.dias30) df
      dias60 := sumCol (·.dias60) df
      dias90 := sumCol (·.dias90) df
      dias_mas90 := sumCol (·.diasMas90) df
      indice_corriente := sumCol (·.porVencer) df / sumCol (·.totalCuota) df * 100
      indice_b := sumCol (·.dias30) df / sumCol (·.totalCuota) df * 100
      indice_c := sumCol (·.dias60) df / sumCol (·.totalCuota) df * 100
      indice_d := sumCol (·.dias90) df / sumCol (·.totalCuota) df * 100
      indice_e := sumCol (·.diasMas90) df / sumCol (·.totalCuota) df * 100 }
  else
    { total := sumCol (·.totalCuota) df
      por_vencer := sumCol (·.porVencer) df
      dias30 := sumCol (·.dias30) df
      dias60 := sumCol (·.dias60) df
      dias90 := sumCol (·.dias90) df
      dias_mas90 := sumCol (·.diasMas90) df
      indice_corriente := 0
      indice_b := 0
      indice_c := 0
      indice_d := 0
      indice_e := 0 }

/-- The per-zone risk metrics of lines 625–645: the same five indices,
the total delinquency index, and the severity-weighted risk score. -/
structure ZonaMetricas where
  cartera_total : ℚ
  indice_corriente : ℚ
  indice_b : ℚ
  indice_c : ℚ
  indice_d : ℚ
  indice_e : ℚ
  indice_mora_total : ℚ
  score_riesgo : ℚ

/-- The per-zone aggregation body (`zonas_data`): sums per zone, the
five percentage indices over the summed `Total Cuota`, the total
delinquency index, and the 1×/2×/3×/5× weighted risk score. -/
def zona_metricas (df : List PRow) : ZonaMetricas :=
  if sumCol (·.totalCuota) df > 0 then
    { cartera_total := sumCol (·.totalCuota) df
      indice_corriente := sumCol (·.porVencer) df / sumCol (·.totalCuota) df * 100
      indice_b := sumCol (·.dias30) df / sumCol (·.totalCuota) df * 100
      indice_c := sumCol (·.dias60) df / sumCol (·.totalCuota) df * 100
      indice_d := sumCol (·.dias90) df / sumCol (·.totalCuota) df * 100
      indice_e := sumCol (·.diasMas90) df / sumCol (·.totalCuota) df * 100
      indice_mora_total :=
        (sumCol (·.dias30) df + sumCol (·.dias60) df + sumCol (·.dias90) df +
          sumCol (·.diasMas90) df) / sumCol (·.totalCuota) df * 100
      score_riesgo :=
        (sumCol (·.dias30) df / sumCol (·.totalCuota) df * 100) * 1 +
        (sumCol (·.dias60) df / sumCol (·.totalCuota) df * 100) * 2 +
        (sumCol (·.dias90) df / sumCol (·.totalCuota) df * 100) * 3 +
        (sumCol (·.diasMas90) df / sumCol (·.totalCuota) df * 100) * 5 }
  else
    { cartera_total := sumCol (·.totalCuota) df
      indice_corriente := 0
      indice_b := 0
      indice_c := 0
      indice_d := 0
      indice_e := 0
      indice_mora_total := 0
      score_riesgo := 0 }

/-- The sum of the five bucket percentages of a group. -/
def suma_indices (m : Metricas) : ℚ :=
  m.indice_corriente + m.indice_b + m.indice_c + m.indice_d + m.indice_e

/-- The sum of the five bucket percentages of a zone. -/
def zona_suma_indices (m : ZonaMetricas) : ℚ :=
  m.indice_corriente + m.indice_b + m.indice_c + m.indice_d + m.indice_e

/-- The sum of the five aging buckets across a group. -/
def bucket_sum (df : List PRow) : ℚ :=
  sumCol (·.porVencer) df + sumCol (·.dias30) df + sumCol (·.dias60) df +
    sumCol (·.dias90) df + sumCol (·.diasMas90) df

/-- C1 (amended): in both the per-company metrics and the per-zone
aggregation the denominator of every percentage is the summed
`Total Cuota` field, not the sum of the buckets, so for a group with
positive total the five percentages sum to
(bucket sum / reported total) · 100; this equals 100 precisely when the
summed buckets coincide with the summed `Total Cuota`, and the ±0.01
invariant fails for any group where the two differ enough. -/
theorem C1_aging_suma_porcentajes (df : List PRow)
    (h : 0 < sumCol (·.totalCuota) df) :
    suma_indices (obtener_metricas df) =
      bucket_sum df / sumCol (·.totalCuota) df * 100 ∧
    zona_suma_indices (zona_metricas df) =
      bucket_sum df / sumCol (·.totalCuota) df * 100 ∧
    (suma_indices (obtener_metricas df) = 100 ↔
      bucket_sum df = sumCol (·.totalCuota) df) := by
  have ht : sumCol (·.totalCuota) df ≠ 0 := ne_of_gt h
  have h1 : suma_indices (obtener_metricas df) =
      bucket_sum df / sumCol (·.totalCuota) df * 100 := by
    rw [obtener_metricas, if_pos h, suma_indices, bucket_sum]
    field_simp
    ring
  refine ⟨h1, ?_, ?_⟩
  · rw [zona_metricas, if_pos h, zona_suma_indices, bucket_sum]
    field_simp
    ring
  · rw [h1]
    constructor
    · intro he
      rw [div_mul_eq_mul_div, div_eq_iff ht] at he
      linarith
    · intro he
      rw [he]
      field_simp

/-- C1 witness: the spec's concrete scenario — one record with
buckets 700/200/100/0/0 and reported total 1000 — where the reported
total equals the bucket sum, so the percentages sum to exactly 100. -/
theorem C1_aging_witness :
    suma_indices (obtener_metricas [⟨1000, 700, 200, 100, 0, 0⟩]) = 100 :=
  (C1_aging_suma_porcentajes [⟨1000, 700, 200, 100, 0, 0⟩]
      (by norm_num [sumCol])).2.2.mpr
    (by norm_num [bucket_sum, sumCol])

/-- C1 counterexample: a single record whose reported `Total Cuota` is
200 while its buckets sum to 100 — the group total is positive but the
five percentages sum to 50, outside every ±0.01 tolerance of 100. -/
theorem C1_aging_counterexample :
    0 < sumCol (·.totalCuota) [⟨200, 100, 0, 0, 0, 0⟩] ∧
    suma_indices (obtener_metricas [⟨200, 100, 0, 0, 0, 0⟩]) = 50 ∧
    ¬ |suma_indices (obtener_metricas [⟨200, 100, 0, 0, 0, 0⟩]) - 100| ≤ 1 / 100 := by
  have h : sumCol (·.totalCuota) [(⟨200, 100, 0, 0, 0, 0⟩ : PRow)] = 200 := by
    norm_num [sumCol]
  have h50 : suma_indices (obtener_metricas [⟨200, 100, 0, 0, 0, 0⟩]) = 50 := by
    rw [obtener_metricas, if_pos (by rw [h]; norm_num), suma_indices]
    norm_num [sumCol]
  refine ⟨by rw [h]; norm_num, h50, by rw [h50]; norm_num⟩

/-! ### Period comparison (`utils/data_loader.py`,
`compare_cartera_periods`, lines 363–448) -/

/-- A cartera record restricted to the fields the comparator reads for
the total metric: its company classification and its `Total Cuota`. -/
structure CompRow where
  empresa : String
  totalCuota : ℚ

/-- Group total `df[df['Empresa'] == empresa]['Total Cuota'].sum()`. -/
def total_empresa (df : List CompRow) (e : String) : ℚ :=
  ((df.filter (fun r => r.empresa == e)).map (·.totalCuota)).sum

/-- Absolute delta `var_total = total2 - total1` (line 417). -/
def var_total (df1 df2 : List CompRow) (e : String) : ℚ :=
  total_empresa df2 e - total_empresa df1 e

/-- Percentage delta `var_porcentaje` (line 418): the relative delta over the base when
the base total is positive, else 100 when the comparison total is
positive, else 0. -/
def var_porcentaje (df1 df2 : List CompRow) (e : String) : ℚ :=
  if total_empresa df1 e > 0 then var_total df1 df2 e / total_empresa df1 e * 100
  else if total_empresa df2 e > 0 then 100 else 0

/-- Insert a string into a sorted list of strings. -/
def insertSorted (s : String) : List String → List String
  | [] => [s]
  | t :: ts => if s ≤ t then s :: t :: ts else t :: insertSorted s ts

/-- Model of `sorted(...)` on a list of strings. -/
def sortStr (l : List String) : List String := l.foldr insertSorted []

/-- Union `sorted(set(empresas of df1) | set(empresas of df2))` (lines
388–396). -/
def empresas_union (df1 df2 : List CompRow) : List String :=
  sortStr (((df1 ++ df2).map (·.empresa)).dedup)

/-- One row of the comparison table (restricted to the total metric). -/
structure CompEntry where
  empresa : String
  total1 : ℚ
  total2 : ℚ
  variacion_total : ℚ
  variacion_pct : ℚ

/-- Function `compare_cartera_periods`: one comparison row per company in the
union of the two periods. -/
def compare_cartera_periods (df1 df2 : List CompRow) : List CompEntry :=
  (empresas_union df1 df2).map (fun e =>
    { empresa := e
      total1 := total_empresa df1 e
      total2 := total_empresa df2 e
      variacion_total := var_total df1 df2 e
      variacion_pct := var_porcentaje df1 df2 e })

theorem mem_insertSorted {x s : String} {l : List String} :
    x ∈ insertSorted s l ↔ x = s ∨ x ∈ l := by
  induction l with
  | nil => simp [insertSorted]
  | cons t ts ih =>
    rw [insertSorted]
    split_ifs
    · simp
    · simp [ih]
      tauto

theorem mem_sortStr {x : String} {l : List String} :
    x ∈ sortStr l ↔ x ∈ l := by
  induction l with
  | nil => simp [sortStr]
  | cons t ts ih =>
    simp only [sortStr, List.foldr] at ih ⊢
    rw [mem_insertSorted, ih]
    simp

theorem mem_empresas_union {e : String} {df1 df2 : List CompRow} :
    e ∈ empresas_union df1 df2 ↔
      e ∈ df1.map (·.empresa) ∨ e ∈ df2.map (·.empresa) := by
  rw [empresas_union, mem_sortStr, List.mem_dedup, List.map_append,
    List.mem_append]

/-- C8: the comparator is antisymmetric in its two periods — the group
set of `compare(A, B)` equals that of `compare(B, A)`, and on every
shared group the absolute total delta of one direction is the exact
negation of the other, so the two deltas always carry opposite signs. -/
theorem C8_comparator_antisimetria (A B : List CompRow) :
    (∀ e, e ∈ empresas_union A B ↔ e ∈ empresas_union B A) ∧
    (∀ e, var_total A B e = - var_total B A e) ∧
    (∀ p ∈ compare_cartera_periods A B, ∀ q ∈ compare_cartera_periods B A,
      p.empresa = q.empresa →
        p.variacion_total = - q.variacion_total ∧
        (0 < p.variacion_total ↔ q.variacion_total < 0) ∧
        (p.variacion_total < 0 ↔ 0 < q.variacion_total) ∧
        (p.variacion_total = 0 ↔ q.variacion_total = 0)) := by
  have hvar : ∀ e, var_total A B e = - var_total B A e := by
    intro e
    rw [var_total, var_total]
    ring
  refine ⟨?_, hvar, ?_⟩
  · intro e
    rw [mem_empresas_union, mem_empresas_union]
    tauto
  · intro p hp q hq hpq
    rw [compare_cartera_periods, List.mem_map] at hp hq
    obtain ⟨e1, _, he1⟩ := hp
    obtain ⟨e2, _, he2⟩ := hq
    have hee : e1 = e2 := by
      have h1 : p.empresa = e1 := by rw [← he1]
      have h2 : q.empresa = e2 := by rw [← he2]
      rw [← h1, ← h2, hpq]
    have hp' : p.variacion_total = var_total A B e1 := by rw [← he1]
    have hq' : q.variacion_total = var_total B A e2 := by rw [← he2]
    rw [hp', hq', ← hee, hvar e1]
    refine ⟨rfl, ?_, ?_, ?_⟩
    · constructor <;> intro <;> linarith
    · constructor <;> intro <;> linarith
    · constructor <;> intro <;> linarith

/-- C8 witness: antisymmetry applied to two concrete one-record
periods. -/
theorem C8_comparator_witness :
    var_total [⟨"X", 100⟩] [⟨"X", 250⟩] "X" =
      - var_total [⟨"X", 250⟩] [⟨"X", 100⟩] "X" :=
  (C8_comparator_antisimetria [⟨"X", 100⟩] [⟨"X", 250⟩]).2.1 "X"

/-- C4 (amended): the percentage delta is
`(total2 − total1) / total1 × 100` when the base total is positive, 0
when the base is not positive and the comparison is not positive
(including the both-zero case), and 100 when the base is zero and the
comparison is **positive** — a comparison total that is non-zero but
negative yields 0, not 100 as the original claim states.  A group
absent from a period contributes a zero total there. -/
theorem C4_delta_porcentual (A B : List CompRow) (e : String) :
    (total_empresa A e > 0 →
      var_porcentaje A B e = (total_empresa B e - total_empresa A e) /
        total_empresa A e * 100) ∧
    (total_empresa A e = 0 → total_empresa B e = 0 → var_porcentaje A B e = 0) ∧
    (total_empresa A e = 0 → 0 < total_empresa B e →
      var_porcentaje A B e = 100 ∧ var_total A B e = total_empresa B e) ∧
    ((∀ r ∈ A, r.empresa ≠ e) → total_empresa A e = 0) := by
  refine ⟨?_, ?_, ?_, ?_⟩
  · intro h
    rw [var_porcentaje, if_pos h, var_total]
  · intro h1 h2
    rw [var_porcentaje, if_neg (by rw [h1]; exact lt_irrefl 0),
      if_neg (by rw [h2]; exact lt_irrefl 0)]
  · intro h1 h2
    constructor
    · rw [var_porcentaje, if_neg (by rw [h1]; exact lt_irrefl 0), if_pos h2]
    · rw [var_total, h1, sub_zero]
  · intro h
    rw [total_empresa]
    have hf : A.filter (fun r => r.empresa == e) = [] := by
      rw [List.filter_eq_nil_iff]
      intro r hr
      simpa using h r hr
    rw [hf]
    rfl

/-- C4 witness: the concrete scenario — group `"Y"` absent in period A
and totalling 500 in period B gives absolute delta 500 and percentage
delta 100. -/
theorem C4_delta_porcentual_witness :
    var_porcentaje [] [⟨"Y", 500⟩] "Y" = 100 ∧
    var_total [] [⟨"Y", 500⟩] "Y" = 500 := by
  have h0 : total_empresa [] "Y" = 0 := rfl
  have h5 : total_empresa [⟨"Y", 500⟩] "Y" = 500 := by
    norm_num [total_empresa]
  have := (C4_delta_porcentual [] [⟨"Y", 500⟩] "Y").2.2.1 h0 (by rw [h5]; norm_num)
  rw [h5] at this
  exact this

/-- C4 counterexample: base total 0 and comparison total −500 (non-zero)
— the code yields a percentage delta of 0, while the claim demands 100
for every non-zero comparison total. -/
theorem C4_delta_porcentual_counterexample :
    total_empresa ([] : List CompRow) "Y" = 0 ∧
    total_empresa [⟨"Y", -500⟩] "Y" = -500 ∧
    var_porcentaje [] [⟨"Y", -500⟩] "Y" = 0 ∧
    var_porcentaje [] [⟨"Y", -500⟩] "Y" ≠ 100 := by
  have h0 : total_empresa [] "Y" = 0 := rfl
  have h5 : total_empresa [⟨"Y", -500⟩] "Y" = -500 := by
    norm_num [total_empresa]
  have hv : var_porcentaje [] [⟨"Y", -500⟩] "Y" = 0 := by
    rw [var_porcentaje, if_neg (by rw [h0]; exact lt_irrefl 0),
      if_neg (by rw [h5]; norm_num)]
  refine ⟨h0, h5, hv, by rw [hv]; norm_num⟩

/-! ### Confidence factor (`pages/2_Cartera.py`,
`calcular_factor_confianza`, lines 185–201) -/

/-- Function `calcular_factor_confianza`: 0.3 for non-positive record counts,
otherwise `min(1.0, 0.3 + (log10(n+1)/log10(100)) * 0.7)`. -/
noncomputable def calcular_factor_confianza (n : Int) : ℝ :=
  if n ≤ 0 then 0.3
  else min 1 (0.3 + Real.logb 10 ((n : ℝ) + 1) / Real.logb 10 100 * 0.7)

theorem logb_ten_hundred : Real.logb 10 100 = 2 := by
  rw [show (100 : ℝ) = 10 ^ (2 : ℕ) by norm_num, Real.logb_pow,
    Real.logb_self_eq_one (by norm_num)]
  norm_num

/-- C9: the confidence factor equals
`min(1.0, 0.3 + 0.7 × log10(n+1)/log10(100))` for positive record
counts and 0.3 otherwise; it always lies in [0.3, 1.0] and is exactly 1
for every count of at least 100 records. -/
theorem C9_factor_confianza (n : Int) :
    (0 < n → calcular_factor_confianza n =
      min 1 (0.3 + 0.7 * (Real.logb 10 ((n : ℝ) + 1) / Real.logb 10 100))) ∧
    (n ≤ 0 → calcular_factor_confianza n = 0.3) ∧
    (0.3 ≤ calcular_factor_confianza n ∧ calcular_factor_confianza n ≤ 1) ∧
    (100 ≤ n → calcular_factor_confianza n = 1) := by
  refine ⟨?_, ?_, ?_, ?_⟩
  · intro h
    rw [calcular_factor_confianza, if_neg (by omega)]
    ring_nf
  · intro h
    rw [calcular_factor_confianza, if_pos h]
  · rw [calcular_factor_confianza]
    split_ifs with h
    · norm_num
    · constructor
      · refine le_min (by norm_num) ?_
        have hlog : 0 ≤ Real.logb 10 ((n : ℝ) + 1) := by
          refine Real.logb_nonneg (by norm_num) ?_
          have : (1 : ℝ) ≤ (n : ℝ) := by exact_mod_cast (by omega : (1 : Int) ≤ n)
          linarith
        rw [logb_ten_hundred]
        nlinarith
      · exact min_le_left _ _
  · intro h
    rw [calcular_factor_confianza, if_neg (by omega)]
    have h2 : (2 : ℝ) ≤ Real.logb 10 ((n : ℝ) + 1) := by
      rw [← logb_ten_hundred]
      refine Real.logb_le_logb_of_le (by norm_num) (by norm_num) ?_
      have : (100 : ℝ) ≤ (n : ℝ) := by exact_mod_cast h
      linarith
    have hge : (1 : ℝ) ≤ 0.3 + Real.logb 10 ((n : ℝ) + 1) / Real.logb 10 100 * 0.7 := by
      rw [logb_ten_hundred]
      nlinarith
    exact min_eq_left hge

/-- C9 witness: full confidence at exactly 100 records, and the floor
value below one record. -/
theorem C9_factor_confianza_witness :
    calcular_factor_confianza 100 = 1 ∧ calcular_factor_confianza 0 = 0.3 :=
  ⟨(C9_factor_confianza 100).2.2.2 (by norm_num),
   (C9_factor_confianza 0).2.1 (by norm_num)⟩

/-! ### Excel/parquet cache (`utils/data_loader.py`, `is_cache_valid`
lines 41–45 and `load_excel_with_cache` lines 47–90) -/

/-- The filesystem state seen by one `load_excel_with_cache` call: the
source file's modification time, raw content and parseability; the
cache file (modification time and stored table) when it exists; and
whether the cache can be read and written. -/
structure CacheState (α β : Type) where
  srcMtime : Nat
  srcContent : α
  srcParsable : Bool
  cache? : Option (Nat × β)
  cacheReadable : Bool
  cacheWritable : Bool

/-- Predicate `is_cache_valid`: the cache file exists and its modification time
is at least the source file's. -/
def is_cache_valid {α β : Type} (s : CacheState α β) : Bool :=
  match s.cache? with
  | none => false
  | some (m, _) => s.srcMtime ≤ m

/-- The outcome of one load: the returned table (`none` models the
`return None` of a failed Excel parse), whether the source file was
read, which advisories were emitted, and the filesystem afterwards. -/
structure LoadResult (α β : Type) where
  result : Option β
  parsedSource : Bool
  warned : Bool
  errored : Bool
  state : CacheState α β

/-- The Excel branch of `load_excel_with_cache` (lines 73–90): parse
the source, apply `processing_func`, try to persist the result to the
cache (a failed write only warns), or error out returning `None` with
the cache untouched. -/
def load_from_source {α β : Type} (parse : α → β) (f : β → β) (now : Nat)
    (s : CacheState α β) (warned0 : Bool) : LoadResult α β :=
  if s.srcParsable then
    if s.cacheWritable then
      { result := some (f (parse s.srcContent)), parsedSource := true
        warned := warned0, errored := false
        state := { s with cache? := some (now, f (parse s.srcContent)) } }
    else
      { result := some (f (parse s.srcContent)), parsedSource := true
        warned := true, errored := false, state := s }
  else
    { result := none, parsedSource := true, warned := warned0
      errored := true, state := s }

/-- Function `load_excel_with_cache` (lines 47–90): use the parquet cache when it
is valid and readable — re-applying `processing_func` to the cached
table — and otherwise fall back to the Excel branch, warning when a
valid cache failed to read. -/
def load_excel_with_cache {α β : Type} (parse : α → β) (f : β → β) (now : Nat)
    (s : CacheState α β) : LoadResult α β :=
  match s.cache? with
  | some (m, c) =>
    if s.srcMtime ≤ m then
      if s.cacheReadable then
        { result := some (f c), parsedSource := false, warned := false
          errored := false, state := s }
      else load_from_source parse f now s true
    else load_from_source parse f now s false
  | none => load_from_source parse f now s false

/-- C2: with a readable cache and a parseable source, the cached load
is used exactly when the cache file exists with modification time at
least the source's; a valid cache means the source is not re-parsed and
the cached table is returned; an invalid cache means the source is
parsed fresh and the result persisted; moving the source's modification
time past the cache's forces a re-parse, while moving the cache's
modification time to at least the source's keeps the cached load. -/
theorem C2_cache_freshness {α β : Type} (parse : α → β) (f : β → β) (now : Nat)
    (s : CacheState α β) (hr : s.cacheReadable = true)
    (hp : s.srcParsable = true) :
    ((load_excel_with_cache parse f now s).parsedSource = false ↔
      is_cache_valid s = true) ∧
    (∀ m c, s.cache? = some (m, c) → s.srcMtime ≤ m →
      (load_excel_with_cache parse f now s).result = some (f c) ∧
      (load_excel_with_cache parse f now s).state = s) ∧
    (is_cache_valid s = false →
      (load_excel_with_cache parse f now s).result =
        some (f (parse s.srcContent)) ∧
      (load_excel_with_cache parse f now s).parsedSource = true ∧
      (s.cacheWritable = true →
        (load_excel_with_cache parse f now s).state.cache? =
          some (now, f (parse s.srcContent)))) ∧
    (∀ t m c, s.cache? = some (m, c) → m < t →
      (load_excel_with_cache parse f now
        { s with srcMtime := t }).parsedSource = true) ∧
    (∀ t c, s.srcMtime ≤ t →
      (load_excel_with_cache parse f now
        { s with cache? := some (t, c) }).parsedSource = false ∧
      (load_excel_with_cache parse f now
        { s with cache? := some (t, c) }).result = some (f c)) := by
  obtain ⟨mt, sc, sp, cq, cr, cw⟩ := s
  dsimp only at hr hp ⊢
  subst hr
  subst hp
  refine ⟨?_, ?_, ?_, ?_, ?_⟩
  · cases cq with
    | none =>
      cases cw <;>
        simp [load_excel_with_cache, load_from_source, is_cache_valid]
    | some mc =>
      obtain ⟨m, c⟩ := mc
      by_cases hm : mt ≤ m <;> cases cw <;>
        simp [load_excel_with_cache, load_from_source, is_cache_valid, hm]
  · intro m c hc hm
    subst hc
    simp [load_excel_with_cache, hm]
  · intro hinv
    cases cq with
    | none =>
      cases cw <;>
        simp [load_excel_with_cache, load_from_source]
    | some mc =>
      obtain ⟨m, c⟩ := mc
      rw [is_cache_valid] at hinv
      have hm : ¬ mt ≤ m := by simpa using hinv
      cases cw <;>
        simp [load_excel_with_cache, load_from_source, hm]
  · intro t m c hc hm
    subst hc
    have hm' : ¬ t ≤ m := by omega
    cases cw <;>
      simp [load_excel_with_cache, load_from_source, hm']
  · intro t c ht
    simp [load_excel_with_cache, ht]

/-- C2 witness: a concrete valid cache (source mtime 5, cache mtime 7)
is used without re-parsing. -/
theorem C2_cache_freshness_witness :
    (load_excel_with_cache (fun a : Nat => a) (fun b : Nat => b + 1) 9
      { srcMtime := 5, srcContent := 3, srcParsable := true
        cache? := some (7, 10), cacheReadable := true
        cacheWritable := true }).parsedSource = false :=
  (C2_cache_freshness (fun a : Nat => a) (fun b : Nat => b + 1) 9
    { srcMtime := 5, srcContent := 3, srcParsable := true
      cache? := some (7, 10), cacheReadable := true
      cacheWritable := true } rfl rfl).1.mpr rfl

/-- C7: failure semantics of the cached load — an unreadable valid
cache falls back to re-parsing the source with a warning, not a
failure; a failed cache write still returns the freshly parsed table
(with a warning); an unparseable source (when the cached path is not
taken) surfaces an error, returns an absent result, and leaves the
cache file untouched. -/
theorem C7_cache_fallos {α β : Type} (parse : α → β) (f : β → β) (now : Nat)
    (s : CacheState α β) :
    (is_cache_valid s = true → s.cacheReadable = false →
      s.srcParsable = true →
      (load_excel_with_cache parse f now s).result =
        some (f (parse s.srcContent)) ∧
      (load_excel_with_cache parse f now s).warned = true ∧
      (load_excel_with_cache parse f now s).errored = false) ∧
    (s.srcParsable = true → s.cacheWritable = false →
      (is_cache_valid s = false ∨ s.cacheReadable = false) →
      (load_excel_with_cache parse f now s).result =
        some (f (parse s.srcContent)) ∧
      (load_excel_with_cache parse f now s).warned = true ∧
      (load_excel_with_cache parse f now s).state.cache? = s.cache?) ∧
    (s.srcParsable = false →
      (is_cache_valid s = false ∨ s.cacheReadable = false) →
      (load_excel_with_cache parse f now s).result = none ∧
      (load_excel_with_cache parse f now s).errored = true ∧
      (load_excel_with_cache parse f now s).state.cache? = s.cache?) := by
  obtain ⟨mt, sc, sp, cq, cr, cw⟩ := s
  dsimp only
  refine ⟨?_, ?_, ?_⟩
  · intro hv hr hp
    subst hr
    subst hp
    cases cq with
    | none => exact absurd hv (by simp [is_cache_valid])
    | some mc =>
      obtain ⟨m, c⟩ := mc
      rw [is_cache_valid] at hv
      dsimp only at hv
      have hm : mt ≤ m := by simpa using hv
      cases cw <;>
        simp [load_excel_with_cache, load_from_source, hm]
  · intro hp hw hbad
    subst hp
    subst hw
    cases cq with
    | none => simp [load_excel_with_cache, load_from_source]
    | some mc =>
      obtain ⟨m, c⟩ := mc
      by_cases hm : mt ≤ m
      · have hcr : cr = false := by
          rcases hbad with hbad | hbad
          · rw [is_cache_valid] at hbad
            dsimp only at hbad
            simp [hm] at hbad
          · exact hbad
        subst hcr
        simp [load_excel_with_cache, load_from_source, hm]
      · simp [load_excel_with_cache, load_from_source, hm]
  · intro hp hbad
    subst hp
    cases cq with
    | none => simp [load_excel_with_cache, load_from_source]
    | some mc =>
      obtain ⟨m, c⟩ := mc
      by_cases hm : mt ≤ m
      · have hcr : cr = false := by
          rcases hbad with hbad | hbad
          · rw [is_cache_valid] at hbad
            dsimp only at hbad
            simp [hm] at hbad
          · exact hbad
        subst hcr
        simp [load_excel_with_cache, load_from_source, hm]
      · simp [load_excel_with_cache, load_from_source, hm]

/-- C7 witness: a concrete corrupt-but-valid cache falls back to the
source and warns. -/
theorem C7_cache_fallos_witness :
    (load_excel_with_cache (fun a : Nat => a + 100) (fun b : Nat => b) 9
      { srcMtime := 5, srcContent := 3, srcParsable := true
        cache? := some (7, 10), cacheReadable := false
        cacheWritable := true }).result = some 103 :=
  ((C7_cache_fallos (fun a : Nat => a + 100) (fun b : Nat => b) 9
    { srcMtime := 5, srcContent := 3, srcParsable := true
      cache? := some (7, 10), cacheReadable := false
      cacheWritable := true }).1 rfl rfl rfl).1

/-- C10: on a cache miss the post-transform table `f(parse(src))` is
persisted, and the following cache hit applies `f` again to the
persisted table, returning `f(f(parse(src)))`; the two loads return
identical tables exactly when `f` is idempotent at the parsed table. -/
theorem C10_cache_retransforma {α β : Type} (parse : α → β) (f : β → β)
    (now : Nat) (s : CacheState α β) (hc : s.cache? = none)
    (hr : s.cacheReadable = true) (hp : s.srcParsable = true)
    (hw : s.cacheWritable = true) (hnow : s.srcMtime ≤ now) :
    (load_excel_with_cache parse f now s).result =
      some (f (parse s.srcContent)) ∧
    (load_excel_with_cache parse f now s).state.cache? =
      some (now, f (parse s.srcContent)) ∧
    (load_excel_with_cache parse f now
        (load_excel_with_cache parse f now s).state).result =
      some (f (f (parse s.srcContent))) ∧
    ((load_excel_with_cache parse f now
        (load_excel_with_cache parse f now s).state).result =
      (load_excel_with_cache parse f now s).result ↔
        f (f (parse s.srcContent)) = f (parse s.srcContent)) := by
  obtain ⟨mt, sc, sp, cq, cr, cw⟩ := s
  dsimp only at hc hr hp hw hnow ⊢
  subst hc
  subst hr
  subst hp
  subst hw
  have h1 : load_excel_with_cache parse f now
      (⟨mt, sc, true, none, true, true⟩ : CacheState α β) =
      { result := some (f (parse sc)), parsedSource := true
        warned := false, errored := false
        state := ⟨mt, sc, true, some (now, f (parse sc)), true, true⟩ } := by
    simp [load_excel_with_cache, load_from_source]
  rw [h1]
  refine ⟨rfl, rfl, ?_, ?_⟩
  · simp [load_excel_with_cache, hnow]
  · simp [load_excel_with_cache, hnow]

/-- C10 witness: with the non-idempotent transform `b + 1` a concrete
miss-then-hit pair returns different tables. -/
theorem C10_cache_retransforma_witness :
    (load_excel_with_cache (fun a : Nat => a) (fun b : Nat => b + 1) 9
      { srcMtime := 5, srcContent := 3, srcParsable := true
        cache? := none, cacheReadable := true
        cacheWritable := true }).result = some 4 :=
  (C10_cache_retransforma (fun a : Nat => a) (fun b : Nat => b + 1) 9
    { srcMtime := 5, srcContent := 3, srcParsable := true
      cache? := none, cacheReadable := true
      cacheWritable := true } rfl rfl rfl rfl (by norm_num)).1

/-! ### Cartera deduplication (`utils/data_loader.py`,
`process_cartera_data`, lines 183–299) -/

/-- A cartera record restricted to the deduplication fields: the due
date rendered as a string (`df['Vencimiento'].astype(str)`), the raw
company-name and plate texts, and the optional updated-at timestamp. -/
structure CRow where
  venc : String
  razon : String
  placa : String
  updated : Option Int
deriving DecidableEq, Repr

/-- Model of `.astype(str).str.strip().str.upper()` — the normalization applied
to the company-name and plate columns before keying (lines 251–252). -/
def normalizar_texto (s : String) : String :=
  String.mk ((pyStrip s.data).map Char.toUpper)

/-- Key `_unique_key` (lines 255–259): the due-date string and the two
normalized texts joined with `'_'` separators. -/
def unique_key (r : CRow) : String :=
  r.venc ++ "_" ++ normalizar_texto r.razon ++ "_" ++ normalizar_texto r.placa

/-- Test `df.duplicated(subset=[key], keep=False).sum() > 0`: some key value
occurs at least twice. -/
def hasDupBy (key : CRow → String) : List CRow → Bool
  | [] => false
  | r :: rs => rs.any (fun x => key x == key r) || hasDupBy key rs

/-- Model of `drop_duplicates(..., keep='first')`: keep the first occurrence of
each key. -/
def dropDupFirst (key : CRow → String) : List String → List CRow → List CRow
  | _, [] => []
  | seen, r :: rs =>
    if seen.contains (key r) then dropDupFirst key seen rs
    else r :: dropDupFirst key (key r :: seen) rs

/-- Model of `drop_duplicates(..., keep='last')`: keep the last occurrence of
each key. -/
def dropDupLast (key : CRow → String) (l : List CRow) : List CRow :=
  (dropDupFirst key [] l.reverse).reverse

/-- The `sort_values(by=update-col, ascending=False, na_position='last')`
ordering test: `r` may precede `t` when its timestamp is no older, with
missing timestamps last. -/
def updGe (x y : Option Int) : Bool :=
  match x, y with
  | some a, some b => b ≤ a
  | some _, none => true
  | none, some _ => false
  | none, none => true

/-- Insertion step of the descending sort by updated-at. -/
def insertByUpd (r : CRow) : List CRow → List CRow
  | [] => [r]
  | t :: ts => if updGe r.updated t.updated then r :: t :: ts else t :: insertByUpd r ts

/-- The descending sort by the updated-at column. -/
def sort_desc_updated (l : List CRow) : List CRow := l.foldr insertByUpd []

/-- The all-key-columns-present dedup branch (lines 246–286): when some
composite key repeats, optionally sort by the updated-at column
(most recent first) and keep the first record per key; otherwise leave
the table untouched.  `hasUpd` models the presence of an
updated-at-like column among the candidate names of line 267. -/
def dedup_full (hasUpd : Bool) (rows : List CRow) : List CRow :=
  if hasDupBy unique_key rows then
    dropDupFirst unique_key [] (if hasUpd then sort_desc_updated rows else rows)
  else rows

/-- The dedup dispatch of `process_cartera_data` (lines 237–297): full
dedup when the due-date, company-name and plate columns are all
present; with the due-date present but a text column missing, a warning
is reported and dedup degrades to the due-date only (keeping the last
record); with no due-date column, only the warning is reported.  The
boolean result records whether the degradation was reported. -/
def process_cartera_dedup (hasVenc hasRazon hasPlaca hasUpd : Bool)
    (rows : List CRow) : List CRow × Bool :=
  if hasVenc && hasRazon && hasPlaca then (dedup_full hasUpd rows, false)
  else if hasVenc then
    (if hasDupBy (fun r => r.venc) rows then dropDupLast (fun r => r.venc) rows
     else rows, true)
  else (rows, true)

theorem hasDupBy_pair_eq {key : CRow → String} {r1 r2 : CRow}
    (h : key r1 = key r2) : hasDupBy key [r1, r2] = true := by
  simp [hasDupBy, h]

theorem hasDupBy_pair_ne {key : CRow → String} {r1 r2 : CRow}
    (h : key r1 ≠ key r2) : hasDupBy key [r1, r2] = false := by
  simp only [hasDupBy, List.any_cons, List.any_nil, Bool.or_false, beq_iff_eq]
  exact decide_eq_false (fun he => h he.symm)

/-- C3 (amended): two records collide exactly when their `'_'`-joined
key strings are equal; equality on the (due-date, normalized company
text, normalized plate text) triple implies collision, but not
conversely, because the join is ambiguous when a text field contains
`'_'`.  Among two colliding records the one with the more recent
updated-at value survives when such a column exists, otherwise the
first-encountered one; two records with distinct key strings both
survive; and when the company-name or plate column is absent (due-date
present) the dedup degrades to the due-date column alone — keeping the
last record of a duplicated date — and the degradation is reported. -/
theorem C3_dedup_comportamiento (r1 r2 : CRow) :
    (r1.venc = r2.venc → normalizar_texto r1.razon = normalizar_texto r2.razon →
      normalizar_texto r1.placa = normalizar_texto r2.placa →
      unique_key r1 = unique_key r2) ∧
    (∀ t1 t2 : Int, unique_key r1 = unique_key r2 → r1.updated = some t1 →
      r2.updated = some t2 → t1 < t2 →
      process_cartera_dedup true true true true [r1, r2] = ([r2], false)) ∧
    (unique_key r1 = unique_key r2 →
      process_cartera_dedup true true true false [r1, r2] = ([r1], false)) ∧
    (∀ hasUpd, unique_key r1 ≠ unique_key r2 →
      process_cartera_dedup true true true hasUpd [r1, r2] = ([r1, r2], false)) ∧
    (∀ hasPlaca hasUpd, r1.venc = r2.venc →
      process_cartera_dedup true false hasPlaca hasUpd [r1, r2] = ([r2], true)) ∧
    (∀ hasPlaca hasUpd, r1.venc ≠ r2.venc →
      process_cartera_dedup true false hasPlaca hasUpd [r1, r2] = ([r1, r2], true)) := by
  refine ⟨?_, ?_, ?_, ?_, ?_, ?_⟩
  · intro hv hr hp
    rw [unique_key, unique_key, hv, hr, hp]
  · intro t1 t2 hk h1 h2 hlt
    have hsort : sort_desc_updated [r1, r2] = [r2, r1] := by
      simp [sort_desc_updated, insertByUpd, updGe, h1, h2,
        (show ¬ t2 ≤ t1 by omega)]
    rw [process_cartera_dedup]
    simp only [Bool.and_self, if_true]
    rw [dedup_full, if_pos (hasDupBy_pair_eq hk), if_pos rfl, hsort]
    simp [dropDupFirst, hk]
  · intro hk
    rw [process_cartera_dedup]
    simp only [Bool.and_self, if_true]
    rw [dedup_full, if_pos (hasDupBy_pair_eq hk), if_neg (by simp)]
    simp [dropDupFirst, hk.symm]
  · intro hasUpd hk
    rw [process_cartera_dedup]
    simp only [Bool.and_self, if_true]
    rw [dedup_full, if_neg (by rw [hasDupBy_pair_ne hk]; simp)]
  · intro hasPlaca hasUpd hv
    rw [process_cartera_dedup]
    simp only [Bool.and_false, Bool.false_and, Bool.true_and, if_false]
    rw [if_neg (by simp), if_pos trivial, if_pos (hasDupBy_pair_eq hv)]
    simp [dropDupLast, dropDupFirst, hv.symm]
  · intro hasPlaca hasUpd hv
    rw [process_cartera_dedup]
    simp only [Bool.and_false, Bool.false_and, Bool.true_and, if_false]
    rw [if_neg (by simp), if_pos trivial,
      if_neg (by rw [hasDupBy_pair_ne hv]; simp)]

/-- C3 witness: of two concrete records sharing the composite key with
updated-at timestamps 1 < 5, only the more recent survives. -/
theorem C3_dedup_witness :
    process_cartera_dedup true true true true
      [⟨"2024-01-01", "Acme", "XYZ", some 1⟩,
       ⟨"2024-01-01", "acme ", "xyz", some 5⟩] =
      ([⟨"2024-01-01", "acme ", "xyz", some 5⟩], false) :=
  (C3_dedup_comportamiento ⟨"2024-01-01", "Acme", "XYZ", some 1⟩
      ⟨"2024-01-01", "acme ", "xyz", some 5⟩).2.1 1 5 (by decide) rfl rfl
    (by norm_num)

/-- C3 counterexample: two records that differ on the company-name key
component (`"A_B"` vs `"A"`) nevertheless collide, because the `'_'`
join of `("A_B", "C")` and `("A", "B_C")` produces the same key string;
the dedup keeps only the first record although the records differ on a
key component, contradicting the claimed collide-iff-equal-components
law. -/
theorem C3_dedup_counterexample :
    normalizar_texto "A_B" ≠ normalizar_texto "A" ∧
    unique_key ⟨"2024-01-01", "A_B", "C", none⟩ =
      unique_key ⟨"2024-01-01", "A", "B_C", none⟩ ∧
    process_cartera_dedup true true true false
      [⟨"2024-01-01", "A_B", "C", none⟩, ⟨"2024-01-01", "A", "B_C", none⟩] =
      ([⟨"2024-01-01", "A_B", "C", none⟩], false) := by decide

end Dashboard
